import Mathlib

/-!
Shallow embedding of the wildfire-detection pipeline:
  src/wildfire/goes/scan.py                                  (GoesScan)
  src/wildfire/models/threshold_model/goes_level_1_wildfires.py

Numeric arrays are embedded as lists over an extended-value type `EF α`
mirroring IEEE-754 / numpy double semantics idealised over an exact carrier:
a value is NaN, +inf, -inf, or a finite number (signed zero is collapsed to
the single finite zero).  Pure numpy expressions become Lean functions on
`EF`; exceptions become `Except`; per-group batch processing becomes `List`
traversal (the `multiprocessing.map_function` collaborator is, per the spec,
a "run this function over this list, return results in a stable order"
service, embedded as `List.map`).
-/

namespace Wildfire

/-- Extended value: an IEEE-754-style double idealised over an exact carrier
`α`.  `fin x` is a finite value; signed zero is collapsed to `fin 0`. -/
inductive EF (α : Type) where
  | nan : EF α
  | inf : EF α
  | ninf : EF α
  | fin (x : α) : EF α
deriving DecidableEq, Repr

namespace EF

variable {α : Type} [LinearOrderedField α]

/-- numpy elementwise negation. -/
def neg : EF α → EF α
  | nan => nan
  | inf => ninf
  | ninf => inf
  | fin x => fin (-x)

/-- numpy elementwise addition (NaN propagates; inf + -inf = NaN). -/
def add : EF α → EF α → EF α
  | nan, _ => nan
  | _, nan => nan
  | inf, ninf => nan
  | ninf, inf => nan
  | inf, _ => inf
  | _, inf => inf
  | ninf, _ => ninf
  | _, ninf => ninf
  | fin a, fin b => fin (a + b)

/-- numpy elementwise subtraction. -/
def sub (a b : EF α) : EF α := add a (neg b)

/-- numpy elementwise multiplication (0 * inf = NaN). -/
def mul : EF α → EF α → EF α
  | nan, _ => nan
  | _, nan => nan
  | inf, inf => inf
  | inf, ninf => ninf
  | ninf, inf => ninf
  | ninf, ninf => inf
  | inf, fin b => if b = 0 then nan else if b < 0 then ninf else inf
  | fin a, inf => if a = 0 then nan else if a < 0 then ninf else inf
  | ninf, fin b => if b = 0 then nan else if b < 0 then inf else ninf
  | fin a, ninf => if a = 0 then nan else if a < 0 then inf else ninf
  | fin a, fin b => fin (a * b)

/-- numpy elementwise division: finite / 0 gives a signed infinity (0/0 NaN),
finite / inf gives 0, inf / inf gives NaN. -/
def div : EF α → EF α → EF α
  | nan, _ => nan
  | _, nan => nan
  | inf, inf => nan
  | inf, ninf => nan
  | ninf, inf => nan
  | ninf, ninf => nan
  | inf, fin b => if b < 0 then ninf else inf
  | ninf, fin b => if b < 0 then inf else ninf
  | fin _, inf => fin 0
  | fin _, ninf => fin 0
  | fin a, fin b =>
      if b = 0 then (if a = 0 then nan else if a < 0 then ninf else inf)
      else fin (a / b)

/-- numpy strict greater-than: any comparison involving NaN is `false`. -/
def gt : EF α → EF α → Bool
  | nan, _ => false
  | _, nan => false
  | inf, inf => false
  | inf, _ => true
  | _, inf => false
  | ninf, _ => false
  | fin _, ninf => true
  | fin a, fin b => decide (b < a)

/-- numpy strict less-than: any comparison involving NaN is `false`. -/
def lt : EF α → EF α → Bool
  | nan, _ => false
  | _, nan => false
  | inf, _ => false
  | ninf, ninf => false
  | ninf, _ => true
  | fin _, inf => true
  | fin _, ninf => false
  | fin a, fin b => decide (a < b)

end EF

/-- numpy natural logarithm on extended doubles: `log NaN = NaN`,
`log inf = inf`, `log (-inf) = NaN`, `log x = NaN` for finite `x < 0`,
`log 0 = -inf`, and `Real.log` on positive finite values. -/
noncomputable def EF.log : EF ℝ → EF ℝ
  | nan => nan
  | inf => inf
  | ninf => nan
  | fin x => if x < 0 then nan else if x = 0 then ninf else fin (Real.log x)

/-- An xarray Dataset for one band, as consumed by `GoesScan._process`
(src/wildfire/goes/scan.py): the raw radiance variable `Rad` (a flattened
2-D array) and the per-band scalar calibration variables; the two derived
variables start absent and are added by `Dataset.assign`-style updates. -/
structure Dataset where
  Rad : List (EF ℝ)
  kappa0 : EF ℝ
  planck_fk1 : EF ℝ
  planck_fk2 : EF ℝ
  planck_bc1 : EF ℝ
  planck_bc2 : EF ℝ
  reflectance_factor : Option (List (EF ℝ)) := none
  brightness_temperature : Option (List (EF ℝ)) := none

/-- `GoesScan._calculate_reflectance_factor`:
`dataset.assign(reflectance_factor=lambda ds: ds.Rad * ds.kappa0)`
(scalar `kappa0` broadcast elementwise over `Rad`). -/
noncomputable def calculate_reflectance_factor (dataset : Dataset) : Dataset :=
  { dataset with
      reflectance_factor := some (dataset.Rad.map (fun r => EF.mul r dataset.kappa0)) }

/-- The brightness-temperature expression assigned by
`GoesScan._calculate_brightness_temperature`, elementwise over `Rad`:
`(planck_fk2 / (np.log((planck_fk1 / Rad) + 1)) - planck_bc1) / planck_bc2`. -/
noncomputable def btExpr (fk1 fk2 bc1 bc2 r : EF ℝ) : EF ℝ :=
  EF.div (EF.sub (EF.div fk2 (EF.log (EF.add (EF.div fk1 r) (EF.fin 1)))) bc1) bc2

/-- `GoesScan._calculate_brightness_temperature`:
`dataset.assign(brightness_temperature=lambda ds:
  (ds.planck_fk2 / (np.log((ds.planck_fk1 / ds.Rad) + 1)) - ds.planck_bc1)
  / ds.planck_bc2)` (scalar constants broadcast elementwise over `Rad`). -/
noncomputable def calculate_brightness_temperature (dataset : Dataset) : Dataset :=
  { dataset with
      brightness_temperature := some (dataset.Rad.map (fun r =>
        btExpr dataset.planck_fk1 dataset.planck_fk2
          dataset.planck_bc1 dataset.planck_bc2 r)) }

/-- `GoesScan._process`: applies `_calculate_reflectance_factor` and then
`_calculate_brightness_temperature` to the dataset, unconditionally. -/
noncomputable def process (dataset : Dataset) : Dataset :=
  calculate_brightness_temperature (calculate_reflectance_factor dataset)

/-- The real-valued brightness-temperature formula on valid inputs, i.e. the
finite-value reading of `btExpr`. -/
noncomputable def btFormula (fk1 fk2 bc1 bc2 r : ℝ) : ℝ :=
  (fk2 / Real.log (fk1 / r + 1) - bc1) / bc2

/-- Modelled from the spec: the inverse of the Planck-inverse
brightness-temperature transform ("inverted back to radiance"); no inverse
routine exists in the repository, so it is written out as the mathematical
inverse of `btFormula`. -/
noncomputable def btInverse (fk1 fk2 bc1 bc2 t : ℝ) : ℝ :=
  fk1 / (Real.exp (fk2 / (bc2 * t + bc1)) - 1)

/-- Which derived product a `GoesScan` displays: `GoesScan.plot` shows the
reflectance factor when `self.channel in range(1, 6)` and the brightness
temperature otherwise. -/
inductive PlotProduct where
  | reflectanceFactor : PlotProduct
  | brightnessTemperature : PlotProduct
deriving DecidableEq, Repr

/-- The channel test of `GoesScan.plot`: Python `channel in range(1, 6)`
holds exactly when `1 <= channel < 6`. -/
def plotProduct (channel : Nat) : PlotProduct :=
  if 1 ≤ channel ∧ channel < 6 then PlotProduct.reflectanceFactor
  else PlotProduct.brightnessTemperature

/-- A single-band `GoesScan` of src/wildfire/goes/scan.py: the fields parsed
from the filepath plus the processed dataset. -/
structure GoesScanBand where
  region : String
  channel : Nat
  satellite : String
  dataset : Dataset

/-- Python exceptions raised by the embedded code. -/
inductive PyError where
  | notImplementedError : PyError
  | valueError (msg : String) : PyError
deriving DecidableEq, Repr

/-- `GoesScan._to_2km_resolution`: `raise NotImplementedError`. -/
def to_2km_resolution (_scan : GoesScanBand) : Except PyError Unit :=
  Except.error PyError.notImplementedError

/-- `GoesScan._filter_bad_pixels`: `raise NotImplementedError`. -/
def filter_bad_pixels (_scan : GoesScanBand) : Except PyError Unit :=
  Except.error PyError.notImplementedError

/-- A UTC timestamp, as held by `datetime.datetime`. -/
structure DateTime where
  year : Nat
  month : Nat
  day : Nat
  hour : Nat
  minute : Nat
  second : Nat
  microsecond : Nat
deriving DecidableEq, Repr

/-- Zero-padded decimal rendering of a field, as Python strftime does. -/
def pad (width n : Nat) : String :=
  String.mk (List.replicate (width - (toString n).length) '0') ++ toString n

/-- Python strftime with format string "%Y-%m-%dT%H:%M:%S"
(the module constant DATETIME_FORMAT). -/
def strftimeSeconds (d : DateTime) : String :=
  pad 4 d.year ++ "-" ++ pad 2 d.month ++ "-" ++ pad 2 d.day ++ "T" ++
    pad 2 d.hour ++ ":" ++ pad 2 d.minute ++ ":" ++ pad 2 d.second

/-- Python strftime with format string "%Y-%m-%dT%H:%M:%S%f": the seconds
format immediately followed by the microseconds zero-padded to 6 digits. -/
def strftimeMicro (d : DateTime) : String :=
  strftimeSeconds d ++ pad 6 d.microsecond

/-- Modelled from the spec: `wildfire.models.threshold_model.model.predict`
is absent from src/; per the spec's confirmed minimal policy the per-pixel
decision is `is_hot AND NOT is_cloud AND NOT is_water` (the night mask is
computed but does not gate the final decision). Keyword argument order
follows the call in `predict_wildfires`. -/
def predict (is_hot is_cloud is_night is_water : Bool) : Bool :=
  is_hot && !is_cloud && !is_water

/-- `wildfire.models.threshold_model.ModelFeatures`: four boolean pixel
grids of the common shape (flattened). -/
structure ModelFeatures where
  is_hot : List Bool
  is_night : List Bool
  is_water : List Bool
  is_cloud : List Bool

/-- Elementwise application of a 4-ary function over four grids, mirroring
numpy broadcasting of `predict` over the four boolean masks. -/
def zip4With {α β γ δ ε : Type} (f : α → β → γ → δ → ε) :
    List α → List β → List γ → List δ → List ε
  | a :: as, b :: bs, c :: cs, d :: ds => f a b c d :: zip4With f as bs cs ds
  | _, _, _, _ => []

/-- Modelled from the spec: `wildfire.data.goes_level_1.GoesScan` (the
16-band scan consumed by the threshold model) is absent from src/; the
claims only need its identifying key and the boolean feature grids that
`get_model_features` derives from its bands. -/
structure GoesScan16 where
  scan_time_utc : DateTime
  region : String
  satellite : String
  features : ModelFeatures

/-- `predict_wildfires`: computes the model features of the scan and applies
`threshold_model.predict` to them elementwise, yielding the boolean
prediction grid. -/
def predict_wildfires (goes_scan : GoesScan16) : List Bool :=
  zip4With predict goes_scan.features.is_hot goes_scan.features.is_cloud
    goes_scan.features.is_night goes_scan.features.is_water

/-- numpy `ndarray.mean()` on a boolean grid: the fraction of true pixels,
`none` (NaN) on an empty grid. -/
def npMean (grid : List Bool) : Option ℚ :=
  if grid.length = 0 then none
  else some ((grid.countP id : ℚ) / (grid.length : ℚ))

/-- The guard `predict_wildfires(goes_scan=goes_scan).mean() > 0` of
`parse_scan_for_wildfire`; a comparison against NaN is false. -/
def meanGtZero (grid : List Bool) : Bool :=
  match npMean grid with
  | none => false
  | some m => decide (0 < m)

/-- The record returned by `parse_scan_for_wildfire` for a positive scan:
a dict with exactly the keys scan_time_utc, region, satellite. -/
structure WildfireRecord where
  scan_time_utc : String
  region : String
  satellite : String
deriving DecidableEq, Repr

/-- Modelled from the spec: `goes_level_1.scan.read_netcdfs` is absent from
src/; a scan group is embedded as the outcome of assembling its 16 files —
either a ValueError-style failure (malformed group, including retrieval
failures) or an assembled 16-band scan. -/
abbrev ScanGroup : Type := Except PyError GoesScan16

/-- `parse_scan_for_wildfire`: on assembly failure the error is logged and
`None` returned; otherwise a record is returned iff the mean of the
prediction grid is strictly positive, with `scan_time_utc` rendered by
strftime format "%Y-%m-%dT%H:%M:%S%f". -/
def parse_scan_for_wildfire (group : ScanGroup) : Option WildfireRecord :=
  match group with
  | Except.error _ => none
  | Except.ok goes_scan =>
      if meanGtZero (predict_wildfires goes_scan) then
        some { scan_time_utc := strftimeMicro goes_scan.scan_time_utc,
               region := goes_scan.region,
               satellite := goes_scan.satellite }
      else none

/-- `find_wildfires`: maps `parse_scan_for_wildfire` over the scan groups
(via the `multiprocessing.map_function` collaborator, an order-preserving
map) and drops the `None` results with `list(filter(None, wildfires))`. -/
def find_wildfires (scan_filepaths : List ScanGroup) : List WildfireRecord :=
  (scan_filepaths.map parse_scan_for_wildfire).filterMap id

/-- The non-filepath arguments of `label_wildfires`; `created` is the value
of `datetime.datetime.utcnow()` at persistence time. -/
structure LabelArgs where
  persist_directory : String
  satellite : String
  region : String
  start : DateTime
  end_ : DateTime
  created : DateTime

/-- The module constant WILDFIRE_FILENAME, a format template interpolating
satellite, region and the three formatted timestamps in this order. -/
def wildfireFilename (satellite region start end_ created : String) : String :=
  "wildfires_" ++ satellite ++ "_" ++ region ++ "_s" ++ start ++ "_e" ++ end_ ++
    "_c" ++ created ++ ".json"

/-- A file written by `label_wildfires`: its path and the JSON object
`dict(enumerate(wildfires))` as an ordered association list. -/
structure PersistedFile where
  path : String
  content : List (Nat × WildfireRecord)
deriving DecidableEq, Repr

/-- Python `dict(enumerate(l))` as an ordered association list. -/
def enumerate {α : Type} (l : List α) : List (Nat × α) :=
  (List.range l.length).zip l

/-- `label_wildfires`: parses every group, keeps the positive records, and
writes `dict(enumerate(wildfires))` to
persist_directory/WILDFIRE_FILENAME (timestamps under DATETIME_FORMAT)
iff at least one wildfire was found; returns the records. -/
def label_wildfires (scan_filepaths : List ScanGroup) (args : LabelArgs) :
    List WildfireRecord × Option PersistedFile :=
  let wildfires := (scan_filepaths.map parse_scan_for_wildfire).filterMap id
  if 0 < wildfires.length then
    (wildfires,
     some { path := args.persist_directory ++ "/" ++
              wildfireFilename args.satellite args.region
                (strftimeSeconds args.start) (strftimeSeconds args.end_)
                (strftimeSeconds args.created),
            content := enumerate wildfires })
  else (wildfires, none)

/-- Scaling the raw radiance of a dataset by a scalar `k` (numpy `k * Rad`,
elementwise). -/
noncomputable def scaleRad (k : ℝ) (dataset : Dataset) : Dataset :=
  { dataset with Rad := dataset.Rad.map (fun r => EF.mul (EF.fin k) r) }

/-- Modelled from the spec: `threshold_model.is_hot_pixel` is absent from
src/; per the spec it is true where the 3.9 µm brightness temperature is
anomalously hot relative to the 11.2 µm band, embedded as numpy comparisons
of the pixel and of the band difference against thresholds `t1` and `t2`. -/
noncomputable def is_hot_pixel (bt_3_89 bt_11_19 t1 t2 : EF ℝ) : Bool :=
  EF.gt bt_3_89 t1 && EF.gt (EF.sub bt_3_89 bt_11_19) t2

/-- A concrete single-pixel dataset for a visible-channel band. -/
def sampleDataset : Dataset :=
  { Rad := [EF.fin 2], kappa0 := EF.fin 3, planck_fk1 := EF.fin 1,
    planck_fk2 := EF.fin 1, planck_bc1 := EF.fin 1, planck_bc2 := EF.fin 1 }

/-- A concrete channel-3 band (a channel in 1–6). -/
def band3 : GoesScanBand :=
  { region := "M1", channel := 3, satellite := "goes16", dataset := sampleDataset }

/-- A concrete single-pixel dataset whose radiance is zero, an invalid
(non-positive) sensor value. -/
def zeroRadianceDataset : Dataset :=
  { Rad := [EF.fin 0], kappa0 := EF.fin 1, planck_fk1 := EF.fin 1,
    planck_fk2 := EF.fin 1, planck_bc1 := EF.fin 1, planck_bc2 := EF.fin 1 }

/-- A concrete single-pixel dataset whose radiance is a missing (NaN)
sensor value. -/
def nanDataset : Dataset :=
  { Rad := [EF.nan], kappa0 := EF.fin 1, planck_fk1 := EF.fin 1,
    planck_fk2 := EF.fin 1, planck_bc1 := EF.fin 1, planck_bc2 := EF.fin 1 }

section Lemmas

variable {α : Type} [LinearOrderedField α]

theorem EF.add_nan (a : EF α) : EF.add a EF.nan = EF.nan := by cases a <;> rfl

theorem EF.nan_add (a : EF α) : EF.add EF.nan a = EF.nan := by cases a <;> rfl

theorem EF.sub_nan (a : EF α) : EF.sub a EF.nan = EF.nan := by cases a <;> rfl

theorem EF.nan_sub (a : EF α) : EF.sub EF.nan a = EF.nan := by cases a <;> rfl

theorem EF.mul_nan (a : EF α) : EF.mul a EF.nan = EF.nan := by cases a <;> rfl

theorem EF.nan_mul (a : EF α) : EF.mul EF.nan a = EF.nan := by cases a <;> rfl

theorem EF.div_nan (a : EF α) : EF.div a EF.nan = EF.nan := by cases a <;> rfl

theorem EF.nan_div (a : EF α) : EF.div EF.nan a = EF.nan := by cases a <;> rfl

theorem EF.gt_nan (a : EF α) : EF.gt a EF.nan = false := by cases a <;> rfl

theorem EF.nan_gt (a : EF α) : EF.gt EF.nan a = false := by cases a <;> rfl

theorem EF.lt_nan (a : EF α) : EF.lt a EF.nan = false := by cases a <;> rfl

theorem EF.nan_lt (a : EF α) : EF.lt EF.nan a = false := by cases a <;> rfl

theorem EF.log_nan : EF.log EF.nan = EF.nan := rfl

/-- Multiplying by a finite scalar associates with the extended elementwise
product: the idealised IEEE product satisfies `(k * r) * c = k * (r * c)`
when `k` is finite. -/
theorem EF.mul_fin_assoc (k : α) (r c : EF α) :
    EF.mul (EF.mul (EF.fin k) r) c = EF.mul (EF.fin k) (EF.mul r c) := by
  rcases r with _ | _ | _ | a <;> rcases c with _ | _ | _ | b <;> simp only [EF.mul]
  all_goals try split_ifs
  all_goals try simp_all only [EF.mul, mul_eq_zero, false_or, or_false, not_or]
  all_goals try split_ifs
  all_goals try rfl
  all_goals try (rw [mul_assoc])
  all_goals try simp_all
  all_goals first
    | (exfalso; nlinarith)
    | (exfalso; rename_i hk0 hka ha0 ha hk;
        exact absurd hka (not_le.mpr (mul_neg_of_pos_of_neg (hk.lt_of_ne (Ne.symm hk0)) ha)))
    | (exfalso; rename_i hk0 hka ha0 ha hk;
        exact absurd hka (not_le.mpr (mul_neg_of_neg_of_pos hk (ha.lt_of_ne (Ne.symm ha0)))))

end Lemmas

/-- C10: for every GoesScan instance, `_to_2km_resolution` and
`_filter_bad_pixels` always raise NotImplementedError — they are
unimplemented extension points, never silent no-ops. -/
theorem goes_scan_stubs_always_raise (scan : GoesScanBand) :
    to_2km_resolution scan = Except.error PyError.notImplementedError ∧
    filter_bad_pixels scan = Except.error PyError.notImplementedError :=
  ⟨rfl, rfl⟩

/-- C3 counterexample: processing a channel-3 band (channel in 1–6) also
populates brightness_temperature — `_process` never leaves a derived product
absent, contradicting "bands with channels 1–6 get a reflectance_factor and
no brightness_temperature". -/
theorem process_populates_bt_on_channel_3 :
    band3.channel = 3 ∧
    ((process band3.dataset).brightness_temperature).isSome = true ∧
    ((process band3.dataset).reflectance_factor).isSome = true :=
  ⟨rfl, rfl, rfl⟩

/-- C3 amended: `_process` populates both reflectance_factor and
brightness_temperature for every band regardless of channel; the channel
only selects which product `plot` displays, reflectance factor exactly for
channels in Python range(1, 6), i.e. channels 1–5, and brightness
temperature for all others (including channel 6). -/
theorem process_populates_both_products (dataset : Dataset) (channel : Nat) :
    ((process dataset).reflectance_factor).isSome = true ∧
    ((process dataset).brightness_temperature).isSome = true ∧
    (plotProduct channel = PlotProduct.reflectanceFactor ↔
      1 ≤ channel ∧ channel < 6) := by
  refine ⟨rfl, rfl, ?_⟩
  unfold plotProduct
  split_ifs with h <;> simp [h]

/-- The mean-of-booleans guard is positive exactly when the grid has at
least one true pixel (an empty grid has NaN mean, which compares false). -/
theorem meanGtZero_eq_countP (grid : List Bool) :
    meanGtZero grid = decide (0 < grid.countP id) := by
  unfold meanGtZero npMean
  rcases grid with _ | ⟨b, bs⟩
  · rfl
  · rw [if_neg (by simp)]
    have hl : (0 : ℚ) < ((b :: bs).length : ℚ) := by
      exact_mod_cast Nat.succ_pos bs.length
    have key : (0 : ℚ) < (((b :: bs).countP id : ℚ) / ((b :: bs).length : ℚ)) ↔
        0 < (b :: bs).countP id := by
      rw [div_pos_iff]
      constructor
      · rintro (⟨h1, _⟩ | ⟨_, h2⟩)
        · exact_mod_cast h1
        · linarith
      · intro h
        exact Or.inl ⟨by exact_mod_cast h, hl⟩
    simp only [decide_eq_decide]
    exact key

/-- C1: for every successfully assembled scan group,
`parse_scan_for_wildfire` returns a record exactly when the prediction grid
has a strictly positive mean, i.e. at least one positive pixel; the record
then has exactly the keys scan_time_utc (strftime "%Y-%m-%dT%H:%M:%S%f"),
region and satellite, and a grid with zero positive pixels yields None. -/
theorem parse_scan_record_iff_positive_pixel (goes_scan : GoesScan16) :
    parse_scan_for_wildfire (Except.ok goes_scan) =
      (if 0 < (predict_wildfires goes_scan).countP id then
        some { scan_time_utc := strftimeMicro goes_scan.scan_time_utc,
               region := goes_scan.region,
               satellite := goes_scan.satellite }
      else none) := by
  by_cases h : 0 < (predict_wildfires goes_scan).countP id <;>
    simp [parse_scan_for_wildfire, meanGtZero_eq_countP, h]

/-- C2: a group whose assembly fails yields None for that group only — the
batch result of `find_wildfires` and `label_wildfires` is exactly that of
the batch without the bad group, every other group's record unchanged, and
both batch functions are total (no exception escapes one bad group). -/
theorem bad_group_isolated (xs ys : List ScanGroup) (e : PyError)
    (args : LabelArgs) :
    parse_scan_for_wildfire (Except.error e) = none ∧
    find_wildfires (xs ++ Except.error e :: ys) = find_wildfires (xs ++ ys) ∧
    label_wildfires (xs ++ Except.error e :: ys) args =
      label_wildfires (xs ++ ys) args := by
  refine ⟨rfl, ?_, ?_⟩
  · simp [find_wildfires, parse_scan_for_wildfire]
  · simp [label_wildfires, parse_scan_for_wildfire]

/-- Keys of `dict(enumerate(l))` are the integers 0, 1, ... in order. -/
theorem enumerate_keys {α : Type} (l : List α) :
    (enumerate l).map Prod.fst = List.range l.length := by
  unfold enumerate
  exact List.map_fst_zip _ _ (by simp)

/-- Values of `dict(enumerate(l))` are the elements of `l` in order. -/
theorem enumerate_values {α : Type} (l : List α) :
    (enumerate l).map Prod.snd = l := by
  unfold enumerate
  exact List.map_snd_zip _ _ (by simp)

/-- C8: `label_wildfires` writes a file iff at least one wildfire record was
produced; the file path is
persist_directory/wildfires_satellite_region_sSTART_eEND_cCREATED.json
with the three timestamps under strftime "%Y-%m-%dT%H:%M:%S", and its
content maps integer indices starting at 0, in order, to the records. -/
theorem label_wildfires_persistence (scan_filepaths : List ScanGroup)
    (args : LabelArgs) :
    ((label_wildfires scan_filepaths args).2.isSome ↔
      (label_wildfires scan_filepaths args).1 ≠ []) ∧
    (label_wildfires scan_filepaths args).2 =
      (if (label_wildfires scan_filepaths args).1 = [] then none
       else some
        { path := args.persist_directory ++ "/" ++
            wildfireFilename args.satellite args.region
              (strftimeSeconds args.start) (strftimeSeconds args.end_)
              (strftimeSeconds args.created),
          content := enumerate (label_wildfires scan_filepaths args).1 }) ∧
    (enumerate (label_wildfires scan_filepaths args).1).map Prod.fst =
      List.range (label_wildfires scan_filepaths args).1.length ∧
    (enumerate (label_wildfires scan_filepaths args).1).map Prod.snd =
      (label_wildfires scan_filepaths args).1 := by
  have main : label_wildfires scan_filepaths args =
      ((scan_filepaths.map parse_scan_for_wildfire).filterMap id,
       if (scan_filepaths.map parse_scan_for_wildfire).filterMap id = [] then
         none
       else some
        { path := args.persist_directory ++ "/" ++
            wildfireFilename args.satellite args.region
              (strftimeSeconds args.start) (strftimeSeconds args.end_)
              (strftimeSeconds args.created),
          content :=
            enumerate ((scan_filepaths.map parse_scan_for_wildfire).filterMap id) }) := by
    simp only [label_wildfires]
    rcases eq_or_ne ((scan_filepaths.map parse_scan_for_wildfire).filterMap id) []
      with hnil | hne
    · rw [if_neg (by simp [hnil]), if_pos hnil]
    · rw [if_pos (List.length_pos.mpr hne), if_neg hne]
  rw [main]
  refine ⟨?_, rfl, enumerate_keys _, enumerate_values _⟩
  rcases eq_or_ne ((scan_filepaths.map parse_scan_for_wildfire).filterMap id) []
    with hnil | hne
  · simp [hnil]
  · simp [hne]

/-- C6: the final per-pixel classification is monotonic in the
disqualifiers — for an is_hot pixel and any fixed is_night, flipping
is_cloud or is_water from false to true never raises the prediction, and a
pixel with is_cloud or is_water true is never predicted positive. -/
theorem predict_monotone_in_disqualifiers (h c n w : Bool) :
    (predict true true n w ≤ predict true false n w) ∧
    (predict true c n true ≤ predict true c n false) ∧
    predict h true n w = false ∧
    predict h c n true = false := by
  revert h c n w; decide

/-- C4: the brightness temperature assigned by
`_calculate_brightness_temperature` is the stated Planck-inverse formula
applied elementwise to the raw radiance: the derived variable is the
elementwise `btExpr`, and on finite calibration constants and valid
radiance `btExpr` is exactly the real formula
(planck_fk2 / ln((planck_fk1 / r) + 1) - planck_bc1) / planck_bc2. -/
theorem brightness_temperature_is_formula (dataset : Dataset) :
    ((calculate_brightness_temperature dataset).brightness_temperature =
      some (dataset.Rad.map (fun r =>
        btExpr dataset.planck_fk1 dataset.planck_fk2
          dataset.planck_bc1 dataset.planck_bc2 r))) ∧
    ∀ fk1 fk2 bc1 bc2 r : ℝ, 0 < fk1 → 0 < r → bc2 ≠ 0 →
      btExpr (EF.fin fk1) (EF.fin fk2) (EF.fin bc1) (EF.fin bc2) (EF.fin r) =
        EF.fin (btFormula fk1 fk2 bc1 bc2 r) := by
  refine ⟨rfl, ?_⟩
  intro fk1 fk2 bc1 bc2 r hfk1 hr hbc2
  have hr0 : r ≠ 0 := ne_of_gt hr
  have hdiv : 0 < fk1 / r := div_pos hfk1 hr
  have hxpos : (0 : ℝ) < fk1 / r + 1 := by linarith
  have hlog : 0 < Real.log (fk1 / r + 1) := Real.log_pos (by linarith)
  unfold btExpr btFormula
  simp only [EF.div, EF.add, EF.log, EF.sub, EF.neg, hr0, not_lt.mpr hxpos.le,
    ne_of_gt hxpos, ne_of_gt hlog, hbc2, if_false, ite_false]
  ring_nf

/-- Witness for C4 at concrete calibration constants and radiance. -/
theorem brightness_temperature_is_formula_witness :
    (0 : ℝ) < 1 ∧ ((1 : ℝ) ≠ 0) ∧
    btExpr (EF.fin 1) (EF.fin 1) (EF.fin 0) (EF.fin 1) (EF.fin 1) =
      EF.fin (btFormula 1 1 0 1 1) :=
  ⟨by norm_num, by norm_num,
   (brightness_temperature_is_formula sampleDataset).2 1 1 0 1 1
     (by norm_num) (by norm_num) (by norm_num)⟩

/-- C5: `_calculate_reflectance_factor` assigns `Rad * kappa0` elementwise,
and the transform is linear in the radiance: scaling the input radiance by
the scalar `k` scales the output reflectance factor by `k`. -/
theorem reflectance_factor_linear (dataset : Dataset) (k : ℝ) :
    ((calculate_reflectance_factor dataset).reflectance_factor =
      some (dataset.Rad.map (fun r => EF.mul r dataset.kappa0))) ∧
    (calculate_reflectance_factor (scaleRad k dataset)).reflectance_factor =
      some ((dataset.Rad.map (fun r => EF.mul r dataset.kappa0)).map
        (fun x => EF.mul (EF.fin k) x)) := by
  refine ⟨rfl, ?_⟩
  simp only [calculate_reflectance_factor, scaleRad, List.map_map]
  congr 1
  apply List.map_congr_left
  intro r _
  exact EF.mul_fin_assoc k r dataset.kappa0

/-- The brightness-temperature expression propagates a NaN radiance. -/
theorem btExpr_nan (a b c d : EF ℝ) : btExpr a b c d EF.nan = EF.nan := by
  unfold btExpr
  rw [EF.div_nan, EF.nan_add, EF.log_nan, EF.div_nan, EF.nan_sub, EF.nan_div]

/-- C7 counterexample: zero radiance is an invalid (non-positive) input,
yet the brightness-temperature expression maps it to the finite value -1
with these calibration constants (numpy: fk1/0 = inf, log inf = inf,
fk2/inf = 0, (0 - 1)/1 = -1), not to a NaN marker — "invalid entries
propagate as invalid-value markers (NaN)" fails at this input. -/
theorem invalid_radiance_not_nan :
    (calculate_brightness_temperature zeroRadianceDataset).brightness_temperature =
      some [EF.fin (-1)] ∧ (EF.fin (-1) : EF ℝ) ≠ EF.nan := by
  constructor
  · norm_num [calculate_brightness_temperature, zeroRadianceDataset, btExpr,
      EF.div, EF.add, EF.log, EF.sub, EF.neg]
  · intro hcon; exact EF.noConfusion hcon

/-- C7 amended: the radiometric formulas are total (never raise) and a
missing (NaN) radiance propagates as NaN through the brightness-temperature
formula; in the classifier every comparison involving NaN evaluates to
false, so a NaN pixel is never hot and never predicted positive — but a
non-positive or saturated finite radiance may yield a finite non-physical
value rather than NaN. -/
theorem nan_propagates_and_compares_false (dataset : Dataset) (i : Nat)
    (hnan : dataset.Rad[i]? = some EF.nan) (x t1 t2 bt14 : EF ℝ)
    (c n w : Bool) :
    (((calculate_brightness_temperature dataset).brightness_temperature.getD
        [])[i]? = some EF.nan) ∧
    EF.gt EF.nan x = false ∧ EF.gt x EF.nan = false ∧
    EF.lt EF.nan x = false ∧ EF.lt x EF.nan = false ∧
    is_hot_pixel EF.nan bt14 t1 t2 = false ∧
    predict (is_hot_pixel EF.nan bt14 t1 t2) c n w = false := by
  refine ⟨?_, EF.nan_gt x, EF.gt_nan x, EF.nan_lt x, EF.lt_nan x, ?_, ?_⟩
  · simp [calculate_brightness_temperature, List.getElem?_map, hnan, btExpr_nan]
  · simp [is_hot_pixel, EF.nan_gt]
  · simp [predict, is_hot_pixel, EF.nan_gt]

/-- Witness for C7 amended at a concrete NaN-radiance dataset. -/
theorem nan_propagates_and_compares_false_witness :
    nanDataset.Rad[0]? = some EF.nan ∧
    ((((calculate_brightness_temperature nanDataset).brightness_temperature.getD
        [])[0]? = some EF.nan) ∧
     EF.gt EF.nan (EF.inf : EF ℝ) = false ∧
     EF.gt (EF.inf : EF ℝ) EF.nan = false ∧
     EF.lt EF.nan (EF.inf : EF ℝ) = false ∧
     EF.lt (EF.inf : EF ℝ) EF.nan = false ∧
     is_hot_pixel EF.nan (EF.fin 0) (EF.fin 0) (EF.fin 0) = false ∧
     predict (is_hot_pixel EF.nan (EF.fin 0) (EF.fin 0) (EF.fin 0)) true true
       true = false) :=
  ⟨rfl, nan_propagates_and_compares_false nanDataset 0 rfl EF.inf (EF.fin 0)
    (EF.fin 0) (EF.fin 0) true true true⟩

/-- C9: for valid (positive) radiance and physical calibration constants,
the Planck-inverse brightness temperature inverted back to radiance
recovers the original radiance exactly (hence within any floating-point
tolerance). -/
theorem brightness_temperature_roundtrip (fk1 fk2 bc1 bc2 r : ℝ)
    (hfk1 : 0 < fk1) (hfk2 : 0 < fk2) (hbc2 : bc2 ≠ 0) (hr : 0 < r) :
    btInverse fk1 fk2 bc1 bc2 (btFormula fk1 fk2 bc1 bc2 r) = r := by
  have hdiv : 0 < fk1 / r := div_pos hfk1 hr
  have hxpos : (0 : ℝ) < fk1 / r + 1 := by linarith
  have hlog : 0 < Real.log (fk1 / r + 1) := Real.log_pos (by linarith)
  have hL : Real.log (fk1 / r + 1) ≠ 0 := ne_of_gt hlog
  have hf2 : fk2 ≠ 0 := ne_of_gt hfk2
  have hf1 : fk1 ≠ 0 := ne_of_gt hfk1
  have hr0 : r ≠ 0 := ne_of_gt hr
  unfold btInverse btFormula
  have h1 : bc2 * ((fk2 / Real.log (fk1 / r + 1) - bc1) / bc2) + bc1 =
      fk2 / Real.log (fk1 / r + 1) := by field_simp
  rw [h1]
  have h2 : fk2 / (fk2 / Real.log (fk1 / r + 1)) = Real.log (fk1 / r + 1) := by
    field_simp
  rw [h2, Real.exp_log hxpos]
  have h3 : fk1 / r + 1 - 1 = fk1 / r := by ring
  rw [h3]
  field_simp

/-- Witness for C9 at concrete calibration constants and radiance. -/
theorem brightness_temperature_roundtrip_witness :
    (0 : ℝ) < 1 ∧ ((1 : ℝ) ≠ 0) ∧
    btInverse 1 1 0 1 (btFormula 1 1 0 1 1) = 1 :=
  ⟨by norm_num, by norm_num,
   brightness_temperature_roundtrip 1 1 0 1 1 (by norm_num) (by norm_num)
     (by norm_num) (by norm_num)⟩

end Wildfire
